import Mathlib

/-!
Shallow embedding of the mdbook-numthm preprocessor core (`src/lib.rs`):
the environment scanner `find_and_replace_envs`, the reference resolver
`find_and_replace_refs` and the relative-path computation `compute_rel_path`.

Modelling conventions:
* Strings are Lean `String`s; the regex-based rewriting of the Rust code
  (crate `regex`, leftmost-first alternation, lazy `.*?` which matches any
  character except a newline) is embedded as explicit character-list
  scanners with the same match semantics.
* `std::path::PathBuf` values are modelled by their component lists
  (`List String`), mirroring `Path::components` for relative paths;
  `PathBuf::pop` is `List.dropLast`, `PathBuf` equality is list equality.
* The `HashMap`s (`refs`, `counter`, `envs`) are association lists; the
  label registry only ever inserts fresh keys, so lookup agrees with the
  hash map.  `envs` is carried in one fixed iteration order (the insertion
  order of `EnvMap::default`); the alternation `keys.join("|")` tries the
  keys in that order.
* `log::warn!` diagnostics are modelled as an accumulated list of
  structured `Warning` events carrying exactly the data interpolated into
  the Rust format strings.
* The `u32` per-document counters wrap at `2 ^ 32`.
* The rewriting loops use fuel `input.length + 1`; every iteration consumes
  at least one character of the input, so the fuel is never exhausted.
-/

/-- The `Env` struct: display name and emphasis delimiter of one environment. -/
structure Env where
  name : String
  emph : String
deriving DecidableEq, Repr

/-- `Env::create`. -/
def Env.create (name emph : String) : Env := ⟨name, emph⟩

/-- `EnvMap::default()`: the five built-in environments, in insertion order. -/
def defaultEnvs : List (String × Env) :=
  [("thm", Env.create "Theorem" "**"),
   ("lem", Env.create "Lemma" "**"),
   ("prop", Env.create "Proposition" "**"),
   ("def", Env.create "Definition" "**"),
   ("rem", Env.create "Remark" "*")]

/-- The `LabelInfo` struct stored in the label registry. -/
structure LabelInfo where
  num_name : String
  path : List String
  title : Option String
deriving DecidableEq, Repr

/-- Structured diagnostic events modelling the two `warn!` calls:
`"{name} {prefix}{ctr}: Label `{label}' already used"` (carrying the kind
name, the rendered number and the label) and
`"Unknown reference: {label}"` (carrying the label). -/
inductive Warning where
  | dupLabel (kind : String) (numbered : String) (label : String)
  | unknownRef (label : String)
deriving DecidableEq, Repr

/-- The reference type captured by `(?P<reftype>ref:|tref:)`. -/
inductive RefType where
  | ref
  | tref
deriving DecidableEq, Repr

/-- The Unicode white-space class matched by `\s` in the Rust `regex` crate. -/
def rsWhitespace (c : Char) : Bool :=
  (9 ≤ c.toNat && c.toNat ≤ 13) || c.toNat == 32 || c.toNat == 133 ||
  c.toNat == 160 || c.toNat == 5760 || (8192 ≤ c.toNat && c.toNat ≤ 8202) ||
  c.toNat == 8232 || c.toNat == 8233 || c.toNat == 8239 || c.toNat == 8287 ||
  c.toNat == 12288

/-- Lazy `.*?` up to a one-character closing delimiter: returns the shortest
prefix (necessarily free of the delimiter) followed by the delimiter, or
`none` when a newline (which `.` does not match) or the end of input is
reached first. -/
def lazyUpTo (stop : Char) : List Char → Option (List Char × List Char)
  | [] => none
  | c :: cs =>
    if c = stop then some ([], cs)
    else if c = '\n' then none
    else
      match lazyUpTo stop cs with
      | some (p, post) => some (c :: p, post)
      | none => none

/-- Lazy `.*?` up to the two-character delimiter `\x7d\x7d`: returns the
shortest prefix before the first occurrence of the delimiter, or `none` when
a newline or the end of input comes first. -/
def lazyUpToBraces : List Char → Option (List Char × List Char)
  | [] => none
  | c :: cs =>
    if c = '\x7d' ∧ cs.head? = some '\x7d' then some ([], cs.tail)
    else if c = '\n' then none
    else
      match lazyUpToBraces cs with
      | some (p, post) => some (c :: p, post)
      | none => none

/-- The alternation `(?P<key>k1|k2|...)` followed by `\x7d\x7d`, with the
regex crate's leftmost-first preference: the first key in joined order whose
text, followed by the two closing braces, starts here. Returns the key and
the text after the closing braces. -/
def matchKey : List String → List Char → Option (String × List Char)
  | [], _ => none
  | k :: ks, cs =>
    if (k.data ++ ['\x7d', '\x7d']).isPrefixOf cs then
      some (k, cs.drop (k.data.length + 2))
    else matchKey ks cs

/-- One attempted match of the declaration pattern
`\x7b\x7b(?P<key>...)\x7d\x7d(\x7b(?P<label>.*?)\x7d)?(\[(?P<title>.*?)\])?`
at the head of the input. Returns the captured key, optional label,
optional title, and the text after the matched span. -/
def tryMatchEnv (keys : List String) : List Char → Option (String × Option (List Char) × Option (List Char) × List Char)
  | '\x7b' :: '\x7b' :: cs =>
    match matchKey keys cs with
    | none => none
    | some (k, rest) =>
      let labRest : Option (List Char) × List Char :=
        match rest with
        | '\x7b' :: cs1 =>
          match lazyUpTo '\x7d' cs1 with
          | some (l, r) => (some l, r)
          | none => (none, rest)
        | _ => (none, rest)
      let titRest : Option (List Char) × List Char :=
        match labRest.2 with
        | '[' :: cs2 =>
          match lazyUpTo ']' cs2 with
          | some (t, r) => (some t, r)
          | none => (none, labRest.2)
        | _ => (none, labRest.2)
      some (k, labRest.1, titRest.1, titRest.2)
  | _ => none

/-- The replacement closure of `re.replace_all` in `find_and_replace_envs`
(lines 226-268): bumps the per-document counter of the matched kind, builds
the anchor and updates the registry when a label is present (warning and
leaving the registry untouched on a duplicate), and renders the header.
Returns the replacement text, the updated counters, registry and warnings.
The `getD` defaults are unreachable (`unwrap` in the source): the key is
always one of the registry keys the pattern was built from. -/
def renderEnvMatch (envs : List (String × Env)) (pre : String) (path : List String)
    (k : String) (lab tit : Option (List Char))
    (ctr : List (String × Nat)) (refs : List (String × LabelInfo)) (warns : List Warning) :
    String × List (String × Nat) × List (String × LabelInfo) × List Warning :=
  let e := (envs.lookup k).getD (Env.create "" "")
  let n := (((ctr.lookup k).getD 0) + 1) % 4294967296
  let ctr' := ctr.map fun p => if p.1 = k then (p.1, n) else p
  let arw : String × List (String × LabelInfo) × List Warning :=
    match lab with
    | some l =>
      let label : String := ⟨l⟩
      if (refs.lookup label).isSome then
        ("<a name=\"" ++ label ++ "\"></a>\n", refs,
          warns ++ [Warning.dupLabel e.name (pre ++ Nat.repr n) label])
      else
        ("<a name=\"" ++ label ++ "\"></a>\n",
          refs ++ [(label, ⟨e.name ++ " " ++ pre ++ Nat.repr n, path, tit.map (⟨·⟩)⟩)],
          warns)
    | none => ("", refs, warns)
  let header : String :=
    match tit with
    | some t =>
      e.emph ++ e.name ++ " " ++ pre ++ Nat.repr n ++ " (" ++ (⟨t⟩ : String) ++ ")." ++ e.emph
    | none => e.emph ++ e.name ++ " " ++ pre ++ Nat.repr n ++ "." ++ e.emph
  (arw.1 ++ header, ctr', arw.2.1, arw.2.2)

/-- `re.replace_all` of the declaration pattern: left-to-right scan, at each
position trying a match; matched spans are replaced via `renderEnvMatch`,
other characters are copied. The fuel is never exhausted for
`fuel ≥ input.length` since every step consumes at least one character. -/
def replaceEnvsLoop (envs : List (String × Env)) (pre : String) (path : List String) :
    Nat → List Char → List (String × Nat) → List (String × LabelInfo) → List Warning →
    List Char × List (String × Nat) × List (String × LabelInfo) × List Warning
  | 0, cs, ctr, refs, warns => (cs, ctr, refs, warns)
  | fuel + 1, cs, ctr, refs, warns =>
    match tryMatchEnv (envs.map Prod.fst) cs with
    | some (k, lab, tit, rest) =>
      let m := renderEnvMatch envs pre path k lab tit ctr refs warns
      let r := replaceEnvsLoop envs pre path fuel rest m.2.1 m.2.2.1 m.2.2.2
      (m.1.data ++ r.1, r.2)
    | none =>
      match cs with
      | [] => ([], ctr, refs, warns)
      | c :: cs' =>
        let r := replaceEnvsLoop envs pre path fuel cs' ctr refs warns
        (c :: r.1, r.2)

/-- `find_and_replace_envs` (lines 204-270): initialises the per-document
counters to zero for every configured kind and rewrites every declaration
match. Returns the rewritten text, the updated label registry and the
emitted warnings. -/
def find_and_replace_envs (s : String) (pre : String) (path : List String)
    (envs : List (String × Env)) (refs : List (String × LabelInfo)) :
    String × List (String × LabelInfo) × List Warning :=
  let ctr0 : List (String × Nat) := envs.map fun p => (p.1, 0)
  let r := replaceEnvsLoop envs pre path (s.data.length + 1) s.data ctr0 refs []
  (⟨r.1⟩, r.2.2.1, r.2.2.2)

/-- The pattern string built at lines 213-221: the configured keys joined
with `|` (no escaping of regex metacharacters) spliced into the template
`\x7b\x7b(?P<key>...)\x7d\x7d(\x7b(?P<label>.*?)\x7d)?(\[(?P<title>.*?)\])?`. -/
def envPattern (keys : List String) : String :=
  "\\\x7b\\\x7b(?P<key>" ++ String.intercalate "|" keys ++
    ")\\\x7d\\\x7d(\\\x7b(?P<label>.*?)\\\x7d)?(\\[(?P<title>.*?)\\])?"

/-- Balance check of unescaped parentheses (a `\`-escaped character is a
literal). This is a necessary condition for `Regex::new` to accept a
pattern, and it is exact on the patterns produced by `envPattern` for the
key sets considered here (which contain no character classes with bare
parentheses). -/
def parenScan : List Char → Nat → Bool
  | [], d => d == 0
  | '\\' :: _ :: cs, d => parenScan cs d
  | '\\' :: [], _ => false
  | '(' :: cs, d => parenScan cs (d + 1)
  | ')' :: cs, d => if d == 0 then false else parenScan cs (d - 1)
  | _ :: cs, d => parenScan cs d

/-- Modelled validity of the pattern for `Regex::new`. -/
def regexParenOk (p : String) : Bool := parenScan p.data 0

/-- The full scanner including the `Regex::new(pattern.as_str()).unwrap()`
at line 224: when the pattern built from the configured keys does not
compile, the `unwrap` panics — modelled as `none` — instead of returning
rewritten text. -/
def find_and_replace_envs_checked (s : String) (pre : String) (path : List String)
    (envs : List (String × Env)) (refs : List (String × LabelInfo)) :
    Option (String × List (String × LabelInfo) × List Warning) :=
  if regexParenOk (envPattern (envs.map Prod.fst)) then
    some (find_and_replace_envs s pre path envs refs)
  else none

/-- The loop of `pathdiff::diff_paths` on two relative paths, given as
`comps` (accumulator), the components of `path` and the components of
`base`. `none` models the `return None` on a `..` component in the base. -/
def diffPathsLoop : List String → List String → List String → Option (List String)
  | comps, [], [] => some comps
  | comps, a :: as, [] => some (comps ++ a :: as)
  | comps, [], _ :: bs => diffPathsLoop (comps ++ [".."]) [] bs
  | comps, a :: as, b :: bs =>
    if comps = [] ∧ a = b then diffPathsLoop comps as bs
    else if b = "." then diffPathsLoop (comps ++ [a]) as bs
    else if b = ".." then none
    else some ((comps ++ [".."]) ++ bs.map (fun _ => "..") ++ a :: as)

/-- `compute_rel_path` (lines 307-318): empty string when the two chapter
paths are equal, otherwise `diff_paths(path_to_ref, chap_path.pop())`
rendered with `/` separators; `none` models the `unwrap` panic when
`diff_paths` returns `None`. -/
def compute_rel_path (chap_path path_to_ref : List String) : Option String :=
  if chap_path = path_to_ref then some ""
  else (diffPathsLoop [] path_to_ref chap_path.dropLast).map (String.intercalate "/")

/-- One attempted match of the reference pattern
`\x7b\x7b(?P<reftype>ref:|tref:)\s*(?P<label>.*?)\x7d\x7d` at the head of
the input: `ref:` is the preferred alternative, `\s*` is greedy, the label
is captured lazily up to the closing braces. -/
def tryMatchRef : List Char → Option (RefType × List Char × List Char)
  | '\x7b' :: '\x7b' :: cs =>
    let rt : Option (RefType × List Char) :=
      if ("ref:".data).isPrefixOf cs then some (RefType.ref, cs.drop 4)
      else if ("tref:".data).isPrefixOf cs then some (RefType.tref, cs.drop 5)
      else none
    match rt with
    | none => none
    | some (t, rest) =>
      match lazyUpToBraces (rest.dropWhile rsWhitespace) with
      | some (lab, rest2) => some (t, lab, rest2)
      | none => none
  | _ => none

/-- The replacement closure of `re.replace_all` in `find_and_replace_refs`
(lines 282-303): a registered label renders a Markdown link whose text is
the numbered name (`ref:`) or the title with fallback to the numbered name
(`tref:`); an unknown label warns and renders the fixed placeholder.
`none` models the `unwrap` panic inside `compute_rel_path`. -/
def renderRefMatch (chap_path : List String) (refs : List (String × LabelInfo))
    (rt : RefType) (lab : List Char) (warns : List Warning) :
    Option (String × List Warning) :=
  let label : String := ⟨lab⟩
  match refs.lookup label with
  | some info =>
    let text : String :=
      match rt with
      | RefType.ref => info.num_name
      | RefType.tref => info.title.getD info.num_name
    match compute_rel_path chap_path info.path with
    | some rel => some ("[" ++ text ++ "](" ++ rel ++ "#" ++ label ++ ")", warns)
    | none => none
  | none => some ("**[??]**", warns ++ [Warning.unknownRef label])

/-- `re.replace_all` of the reference pattern: left-to-right scan replacing
matched spans via `renderRefMatch` and copying other characters. -/
def replaceRefsLoop (chap_path : List String) (refs : List (String × LabelInfo)) :
    Nat → List Char → List Warning → Option (List Char × List Warning)
  | 0, cs, warns => some (cs, warns)
  | fuel + 1, cs, warns =>
    match tryMatchRef cs with
    | some (t, lab, rest) =>
      match renderRefMatch chap_path refs t lab warns with
      | none => none
      | some (rep, warns') =>
        match replaceRefsLoop chap_path refs fuel rest warns' with
        | none => none
        | some (out, warns'') => some (rep.data ++ out, warns'')
    | none =>
      match cs with
      | [] => some ([], warns)
      | c :: cs' =>
        match replaceRefsLoop chap_path refs fuel cs' warns with
        | none => none
        | some (out, warns') => some (c :: out, warns')

/-- `find_and_replace_refs` (lines 274-305): rewrites every reference match
in the document, returning the rewritten text and the emitted warnings. -/
def find_and_replace_refs (s : String) (chap_path : List String)
    (refs : List (String × LabelInfo)) : Option (String × List Warning) :=
  (replaceRefsLoop chap_path refs (s.data.length + 1) s.data []).map
    fun r => (⟨r.1⟩, r.2)

example : find_and_replace_envs "\x7b\x7bprop\x7d\x7d" "1.2." ["crypto", "groups.md"] defaultEnvs [] =
    ("**Proposition 1.2.1.**", [], []) := by decide

example : find_and_replace_envs "\x7b\x7bprop\x7d\x7d\x7bprop:lagrange\x7d" "" ["crypto", "groups.md"] defaultEnvs [] =
    ("<a name=\"prop:lagrange\"></a>\n**Proposition 1.**",
      [("prop:lagrange", ⟨"Proposition 1", ["crypto", "groups.md"], none⟩)], []) := by decide

example : compute_rel_path ["math", "crypto", "signatures", "bls_signatures.md"]
    ["math", "algebra", "groups.md"] = some "../../algebra/groups.md" := by decide

example : find_and_replace_refs "\x7b\x7bref: nope\x7d\x7d tail" [] [] =
    some ("**[??]** tail", [Warning.unknownRef "nope"]) := by decide

/-! Helper lemmas. -/

theorem replaceEnvsLoop_no_match (envs : List (String × Env)) (pre : String)
    (path : List String) (fuel : Nat) :
    ∀ (cs : List Char) (ctr : List (String × Nat)) (refs : List (String × LabelInfo))
      (warns : List Warning),
      (∀ u ∈ cs.tails, tryMatchEnv (envs.map Prod.fst) u = none) →
      replaceEnvsLoop envs pre path fuel cs ctr refs warns = (cs, ctr, refs, warns) := by
  induction fuel with
  | zero => intro cs ctr refs warns _; rfl
  | succ fuel ih =>
    intro cs ctr refs warns h
    have h0 : tryMatchEnv (envs.map Prod.fst) cs = none :=
      h cs ((List.mem_tails cs cs).2 List.suffix_rfl)
    cases cs with
    | nil => simp [replaceEnvsLoop, h0]
    | cons c cs' =>
      have h' : ∀ u ∈ cs'.tails, tryMatchEnv (envs.map Prod.fst) u = none := by
        intro u hu
        refine h u ?_
        rw [List.mem_tails] at hu ⊢
        exact hu.trans (List.suffix_cons c cs')
      simp [replaceEnvsLoop, h0, ih cs' ctr refs warns h']

theorem lazyUpToBraces_no_close (l : List Char)
    (h : ∀ c ∈ l, c ≠ '\x7d' ∧ c ≠ '\n') :
    lazyUpToBraces (l ++ [' ', '\x7d', '\x7d']) = some (l ++ [' '], []) := by
  induction l with
  | nil => decide
  | cons c cs ih =>
    have hc := h c (List.mem_cons_self c cs)
    have hcs : ∀ x ∈ cs, x ≠ '\x7d' ∧ x ≠ '\n' :=
      fun x hx => h x (List.mem_cons_of_mem c hx)
    simp [lazyUpToBraces, hc.1, hc.2, ih hcs]

theorem tryMatchRef_trailing_space (c : Char) (cs : List Char)
    (hws : rsWhitespace c = false)
    (hchars : ∀ x ∈ c :: cs, x ≠ '\x7d' ∧ x ≠ '\n') :
    tryMatchRef ('\x7b' :: '\x7b' :: 'r' :: 'e' :: 'f' :: ':' :: ' ' ::
        (c :: cs ++ [' ', '\x7d', '\x7d'])) =
      some (RefType.ref, c :: cs ++ [' '], []) := by
  have h1 : (("ref:".data).isPrefixOf ('r' :: 'e' :: 'f' :: ':' :: ' ' ::
      (c :: cs ++ [' ', '\x7d', '\x7d']))) = true := rfl
  have hsp : rsWhitespace ' ' = true := rfl
  simp [tryMatchRef, h1, List.dropWhile, hsp, hws]
  rw [show (c :: (cs ++ [' ', '\x7d', '\x7d'])) = (c :: cs) ++ [' ', '\x7d', '\x7d'] from rfl,
    lazyUpToBraces_no_close (c :: cs) hchars]
  rfl

theorem replaceRefsLoop_single_match (chap : List String)
    (refs : List (String × LabelInfo)) (fuel : Nat) (cs : List Char)
    (warns : List Warning) (t : RefType) (lab : List Char) (rep : String)
    (warns' : List Warning)
    (hfuel : fuel ≠ 0)
    (hm : tryMatchRef cs = some (t, lab, []))
    (hr : renderRefMatch chap refs t lab warns = some (rep, warns')) :
    replaceRefsLoop chap refs fuel cs warns = some (rep.data, warns') := by
  cases fuel with
  | zero => exact absurd rfl hfuel
  | succ fuel =>
    have hnil : replaceRefsLoop chap refs fuel [] warns' = some ([], warns') := by
      cases fuel <;> rfl
    simp [replaceRefsLoop, hm, hr, hnil]

/-- Claim C1: when a scanned declaration carries a label already present in
the label registry, the scanner emits a duplicate-label warning naming the
kind, the rendered number and the label, does not insert or overwrite (the
registry is returned unchanged, so the first-inserted `LabelInfo` is
retained), and still emits the anchor tag for the label at the duplicate
site; processing continues non-fatally (the scanner is a total function of
the match). -/
theorem c1_duplicate_label_first_wins
    (envs : List (String × Env)) (pre : String) (path : List String) (k : String)
    (l : List Char) (tit : Option (List Char)) (ctr : List (String × Nat))
    (refs : List (String × LabelInfo)) (warns : List Warning) (e : Env)
    (he : envs.lookup k = some e)
    (hdup : (refs.lookup (String.mk l)).isSome = true) :
    (renderEnvMatch envs pre path k (some l) tit ctr refs warns).2.2.1 = refs ∧
    (renderEnvMatch envs pre path k (some l) tit ctr refs warns).2.2.2 =
      warns ++ [Warning.dupLabel e.name
        (pre ++ Nat.repr ((((ctr.lookup k).getD 0) + 1) % 4294967296)) (String.mk l)] ∧
    ∃ header, (renderEnvMatch envs pre path k (some l) tit ctr refs warns).1 =
      "<a name=\"" ++ String.mk l ++ "\"></a>\n" ++ header := by
  refine ⟨?_, ?_, ?_⟩
  · simp [renderEnvMatch, hdup]
  · simp [renderEnvMatch, he, hdup]
  · rcases tit with _ | t
    · exact ⟨((envs.lookup k).getD (Env.create "" "")).emph ++
          ((envs.lookup k).getD (Env.create "" "")).name ++ " " ++ pre ++
          (((ctr.lookup k).getD 0 + 1) % 4294967296).repr ++ "." ++
          ((envs.lookup k).getD (Env.create "" "")).emph,
        by simp [renderEnvMatch, hdup]⟩
    · exact ⟨((envs.lookup k).getD (Env.create "" "")).emph ++
          ((envs.lookup k).getD (Env.create "" "")).name ++ " " ++ pre ++
          (((ctr.lookup k).getD 0 + 1) % 4294967296).repr ++ " (" ++ String.mk t ++ ")." ++
          ((envs.lookup k).getD (Env.create "" "")).emph,
        by simp [renderEnvMatch, hdup]⟩

-- Witness for C1 at a concrete duplicate declaration.
theorem c1_duplicate_label_first_wins_witness :
    (defaultEnvs.lookup "prop" = some (Env.create "Proposition" "**") ∧
      (([("prop:lagrange", (⟨"Proposition 1", ["a.md"], none⟩ : LabelInfo))].lookup
          (String.mk "prop:lagrange".data)).isSome = true)) ∧
    ((renderEnvMatch defaultEnvs "" ["b.md"] "prop" (some "prop:lagrange".data) none
        [("prop", 0)] [("prop:lagrange", ⟨"Proposition 1", ["a.md"], none⟩)] []).2.2.1 =
      [("prop:lagrange", ⟨"Proposition 1", ["a.md"], none⟩)] ∧
    (renderEnvMatch defaultEnvs "" ["b.md"] "prop" (some "prop:lagrange".data) none
        [("prop", 0)] [("prop:lagrange", ⟨"Proposition 1", ["a.md"], none⟩)] []).2.2.2 =
      [Warning.dupLabel "Proposition" "1" "prop:lagrange"] ∧
    ∃ header, (renderEnvMatch defaultEnvs "" ["b.md"] "prop" (some "prop:lagrange".data) none
        [("prop", 0)] [("prop:lagrange", ⟨"Proposition 1", ["a.md"], none⟩)] []).1 =
      "<a name=\"prop:lagrange\"></a>\n" ++ header) :=
  ⟨⟨by decide, by decide⟩,
    c1_duplicate_label_first_wins defaultEnvs "" ["b.md"] "prop" "prop:lagrange".data none
      [("prop", 0)] [("prop:lagrange", ⟨"Proposition 1", ["a.md"], none⟩)] []
      (Env.create "Proposition" "**") (by decide) (by decide)⟩

/-- Claim C2: a reference whose label is in the registry renders a link; for
`ref:` the link text is the label's `num_name`, for `tref:` it is the
label's title when set and otherwise the `num_name`, in which case the
`tref:` output is identical to the `ref:` output. -/
theorem c2_ref_tref_link_text
    (chap : List String) (refs : List (String × LabelInfo)) (lab : List Char)
    (info : LabelInfo) (warns : List Warning) (rel : String)
    (hl : refs.lookup (String.mk lab) = some info)
    (hrel : compute_rel_path chap info.path = some rel) :
    renderRefMatch chap refs RefType.ref lab warns =
      some ("[" ++ info.num_name ++ "](" ++ rel ++ "#" ++ String.mk lab ++ ")", warns) ∧
    renderRefMatch chap refs RefType.tref lab warns =
      some ("[" ++ info.title.getD info.num_name ++ "](" ++ rel ++ "#" ++ String.mk lab ++ ")",
        warns) ∧
    (info.title = none →
      renderRefMatch chap refs RefType.tref lab warns =
        renderRefMatch chap refs RefType.ref lab warns) := by
  refine ⟨?_, ?_, fun ht => ?_⟩ <;> simp [renderRefMatch, hl, hrel]
  simp [ht]

-- Witness for C2 at a concrete registry entry with a title.
theorem c2_ref_tref_link_text_witness :
    (([("prop:lagrange", (⟨"Proposition 1", ["math", "algebra", "groups.md"],
          some "Lagrange Theorem"⟩ : LabelInfo))].lookup (String.mk "prop:lagrange".data) =
        some (⟨"Proposition 1", ["math", "algebra", "groups.md"], some "Lagrange Theorem"⟩ :
          LabelInfo)) ∧
      compute_rel_path ["math", "crypto", "signatures", "bls_signatures.md"]
        (⟨"Proposition 1", ["math", "algebra", "groups.md"],
          some "Lagrange Theorem"⟩ : LabelInfo).path = some "../../algebra/groups.md") ∧
    (renderRefMatch ["math", "crypto", "signatures", "bls_signatures.md"]
        [("prop:lagrange", ⟨"Proposition 1", ["math", "algebra", "groups.md"],
          some "Lagrange Theorem"⟩)] RefType.ref "prop:lagrange".data [] =
      some ("[Proposition 1](../../algebra/groups.md#prop:lagrange)", []) ∧
    renderRefMatch ["math", "crypto", "signatures", "bls_signatures.md"]
        [("prop:lagrange", ⟨"Proposition 1", ["math", "algebra", "groups.md"],
          some "Lagrange Theorem"⟩)] RefType.tref "prop:lagrange".data [] =
      some ("[Lagrange Theorem](../../algebra/groups.md#prop:lagrange)", []) ∧
    ((⟨"Proposition 1", ["math", "algebra", "groups.md"],
          some "Lagrange Theorem"⟩ : LabelInfo).title = none →
      renderRefMatch ["math", "crypto", "signatures", "bls_signatures.md"]
          [("prop:lagrange", ⟨"Proposition 1", ["math", "algebra", "groups.md"],
            some "Lagrange Theorem"⟩)] RefType.tref "prop:lagrange".data [] =
        renderRefMatch ["math", "crypto", "signatures", "bls_signatures.md"]
          [("prop:lagrange", ⟨"Proposition 1", ["math", "algebra", "groups.md"],
            some "Lagrange Theorem"⟩)] RefType.ref "prop:lagrange".data [])) :=
  ⟨⟨by decide, by decide⟩,
    c2_ref_tref_link_text ["math", "crypto", "signatures", "bls_signatures.md"]
      [("prop:lagrange", ⟨"Proposition 1", ["math", "algebra", "groups.md"],
        some "Lagrange Theorem"⟩)] "prop:lagrange".data
      ⟨"Proposition 1", ["math", "algebra", "groups.md"], some "Lagrange Theorem"⟩ []
      "../../algebra/groups.md" (by decide) (by decide)⟩

/-- Claim C3: a reference whose label is absent from the registry is
replaced by exactly the placeholder `**[??]**` with a warning naming the
label, and processing is non-fatal (the result is `some _`, and the
resolver keeps rewriting the rest of the document, as the concrete second
conjunct shows). -/
theorem c3_unknown_ref_placeholder :
    (∀ (chap : List String) (refs : List (String × LabelInfo)) (lab : List Char)
        (warns : List Warning) (rt : RefType),
        refs.lookup (String.mk lab) = none →
        renderRefMatch chap refs rt lab warns =
          some ("**[??]**", warns ++ [Warning.unknownRef (String.mk lab)])) ∧
    find_and_replace_refs "\x7b\x7bref: nope\x7d\x7d and \x7b\x7btref: gone\x7d\x7d end" [] [] =
      some ("**[??]** and **[??]** end",
        [Warning.unknownRef "nope", Warning.unknownRef "gone"]) := by
  constructor
  · intro chap refs lab warns rt h
    simp [renderRefMatch, h]
  · decide

-- Witness for C3's universally quantified part at a concrete unknown label.
theorem c3_unknown_ref_placeholder_witness :
    (([] : List (String × LabelInfo)).lookup (String.mk "nope".data) = none) ∧
    renderRefMatch [] [] RefType.ref "nope".data [] =
      some ("**[??]**", [Warning.unknownRef (String.mk "nope".data)]) :=
  ⟨by decide, c3_unknown_ref_placeholder.1 [] [] "nope".data [] RefType.ref (by decide)⟩

/-- Claim C6: a declaration with a title marker but no label marker renders
a parenthetical header with no anchor, and leaves the label registry (and
the warning stream) completely unchanged, regardless of the title. -/
theorem c6_title_without_label_no_registry_change
    (envs : List (String × Env)) (pre : String) (path : List String) (k : String)
    (t : List Char) (ctr : List (String × Nat)) (refs : List (String × LabelInfo))
    (warns : List Warning) (e : Env)
    (he : envs.lookup k = some e) :
    (renderEnvMatch envs pre path k none (some t) ctr refs warns).2.2.1 = refs ∧
    (renderEnvMatch envs pre path k none (some t) ctr refs warns).2.2.2 = warns ∧
    (renderEnvMatch envs pre path k none (some t) ctr refs warns).1 =
      e.emph ++ e.name ++ " " ++ pre ++
        Nat.repr ((((ctr.lookup k).getD 0) + 1) % 4294967296) ++ " (" ++ String.mk t ++
        ")." ++ e.emph := by
  refine ⟨rfl, rfl, ?_⟩
  simp [renderEnvMatch, he]

-- Witness for C6 at a concrete titled, label-free declaration.
theorem c6_title_without_label_no_registry_change_witness :
    (defaultEnvs.lookup "prop" = some (Env.create "Proposition" "**")) ∧
    ((renderEnvMatch defaultEnvs "" ["a.md"] "prop" none (some "Lagrange Theorem".data)
        [("prop", 0)] [] []).2.2.1 = [] ∧
    (renderEnvMatch defaultEnvs "" ["a.md"] "prop" none (some "Lagrange Theorem".data)
        [("prop", 0)] [] []).2.2.2 = [] ∧
    (renderEnvMatch defaultEnvs "" ["a.md"] "prop" none (some "Lagrange Theorem".data)
        [("prop", 0)] [] []).1 = "**Proposition 1 (Lagrange Theorem).**") :=
  ⟨by decide,
    c6_title_without_label_no_registry_change defaultEnvs "" ["a.md"] "prop"
      "Lagrange Theorem".data [("prop", 0)] [] [] (Env.create "Proposition" "**") (by decide)⟩

/-- Claim C4: the relative-path computation returns the empty string when
the referencing document's path equals the target path, and otherwise the
`..`-walking relative path from the referencing document's directory to the
target; in particular the end-to-end example: after scanning document A
(`math/algebra/groups.md`, containing the labelled, titled declaration) and
resolving document B (`math/crypto/signatures/bls_signatures.md`), B's
`tref:` renders as `[Lagrange Theorem](../../algebra/groups.md#prop:lagrange)`. -/
theorem c4_relative_path_and_example :
    (∀ p : List String, compute_rel_path p p = some "") ∧
    find_and_replace_refs "\x7b\x7btref: prop:lagrange\x7d\x7d"
        ["math", "crypto", "signatures", "bls_signatures.md"]
        (find_and_replace_envs "\x7b\x7bprop\x7d\x7d\x7bprop:lagrange\x7d[Lagrange Theorem]" ""
          ["math", "algebra", "groups.md"] defaultEnvs []).2.1 =
      some ("[Lagrange Theorem](../../algebra/groups.md#prop:lagrange)", []) := by
  constructor
  · intro p; simp [compute_rel_path]
  · decide

/-- Claim C5 (amended): re-running the environment scanner is a no-op —
returning the text unchanged, inserting nothing into the registry and
emitting no warning — on any text in which the declaration pattern matches
at no position; this covers rewritten output whose labels and titles did
not reintroduce declaration markers, but it does not hold for every input,
because a title marker may contain a full declaration marker that survives
into the rewritten text (see the counterexample). -/
theorem c5_scanner_noop_on_matchfree_text
    (envs : List (String × Env)) (pre : String) (path : List String)
    (refs : List (String × LabelInfo)) (s : String)
    (h : ∀ u ∈ s.data.tails, tryMatchEnv (envs.map Prod.fst) u = none) :
    find_and_replace_envs s pre path envs refs = (s, refs, []) := by
  simp only [find_and_replace_envs]
  rw [replaceEnvsLoop_no_match envs pre path (s.data.length + 1) s.data
    (envs.map fun p => (p.1, 0)) refs [] h]

-- Witness for C5's amended theorem: a first-pass output with no matches left.
theorem c5_scanner_noop_on_matchfree_text_witness :
    (∀ u ∈ ("**Proposition 1 (Lagrange Theorem).**" : String).data.tails,
        tryMatchEnv (defaultEnvs.map Prod.fst) u = none) ∧
    find_and_replace_envs "**Proposition 1 (Lagrange Theorem).**" "" ["a.md"] defaultEnvs [] =
      ("**Proposition 1 (Lagrange Theorem).**", [], []) :=
  ⟨by decide,
    c5_scanner_noop_on_matchfree_text defaultEnvs "" ["a.md"] []
      "**Proposition 1 (Lagrange Theorem).**" (by decide)⟩

-- Counterexample to C5 as stated: a title marker reintroduces the
-- declaration marker, so the scanner's output still matches and a second
-- run rewrites it again instead of returning it unchanged.
theorem c5_scanner_not_idempotent_counterexample :
    (find_and_replace_envs "\x7b\x7bprop\x7d\x7d[\x7b\x7bprop\x7d\x7d]" "" ["a.md"]
        defaultEnvs []).1 = "**Proposition 1 (\x7b\x7bprop\x7d\x7d).**" ∧
    (find_and_replace_envs "**Proposition 1 (\x7b\x7bprop\x7d\x7d).**" "" ["a.md"]
        defaultEnvs []).1 = "**Proposition 1 (**Proposition 1.**).**" ∧
    (find_and_replace_envs
        (find_and_replace_envs "\x7b\x7bprop\x7d\x7d[\x7b\x7bprop\x7d\x7d]" "" ["a.md"]
          defaultEnvs []).1 "" ["a.md"] defaultEnvs []).1 ≠
      (find_and_replace_envs "\x7b\x7bprop\x7d\x7d[\x7b\x7bprop\x7d\x7d]" "" ["a.md"]
        defaultEnvs []).1 := ⟨by decide, by decide, by decide⟩

/-- Claim C7: `\x7b\x7bprop\x7d\x7d\x7bprop:lagrange\x7d` as the first
`prop` with no prefix is rewritten to the anchor
`<a name="prop:lagrange"></a>` followed by a newline immediately before the
header, the header has no parenthetical, and the inserted registry entry
has `num_name` exactly `Proposition 1` (no emphasis, no trailing period)
and `title = none`. -/
theorem c7_label_without_title :
    find_and_replace_envs "\x7b\x7bprop\x7d\x7d\x7bprop:lagrange\x7d" ""
        ["crypto", "groups.md"] defaultEnvs [] =
      ("<a name=\"prop:lagrange\"></a>\n**Proposition 1.**",
        [("prop:lagrange", ⟨"Proposition 1", ["crypto", "groups.md"], none⟩)], []) := by
  decide

/-- Claim C8: counters are per document and per kind — every invocation of
the scanner starts each kind's counter at zero, so any document whose text
is `\x7b\x7bprop\x7d\x7d` (its first and only `prop` declaration), scanned
with the default registry and no prefix, rewrites to exactly
`**Proposition 1.**` whatever the path and incoming registry; in
particular a second document scanned after a first one again numbers its
first `prop` as 1. -/
theorem c8_per_document_counters :
    (∀ (path : List String) (refs : List (String × LabelInfo)),
        find_and_replace_envs "\x7b\x7bprop\x7d\x7d" "" path defaultEnvs refs =
          ("**Proposition 1.**", refs, [])) ∧
    (find_and_replace_envs "\x7b\x7bprop\x7d\x7d" "" ["b.md"] defaultEnvs
        (find_and_replace_envs "\x7b\x7bprop\x7d\x7d" "" ["a.md"] defaultEnvs []).2.1).1 =
      "**Proposition 1.**" := by
  exact ⟨fun path refs => rfl, rfl⟩

/-- Claim C9: the match pattern joins the configured keys with `|` without
escaping regex metacharacters, so the scanner is not total over all
registries: for the configured key `(` the built pattern has unbalanced
unescaped parentheses, `Regex::new(...).unwrap()` fails, and the scanner
panics (modelled by `none`) instead of returning rewritten text — while the
default registry's pattern does compile. -/
theorem c9_unescaped_key_panics :
    find_and_replace_envs_checked "x" "" ["a.md"] [("(", Env.create "Environment" "**")] [] =
      none ∧
    regexParenOk (envPattern ["("]) = false ∧
    regexParenOk (envPattern (defaultEnvs.map Prod.fst)) = true :=
  ⟨by decide, by decide, by decide⟩

/-- Claim C10: the label of a reference marker is captured verbatim up to
the closing braces, including trailing whitespace: for a registered label
`L` (written `c :: cs`, non-empty, not starting with whitespace and — as
for every label a declaration can register — containing no closing brace
and no newline) whose variant `L ++ " "` is not registered, the input
`\x7b\x7bref: L \x7d\x7d` (one space before the closing braces) looks up
the distinct string `L ++ " "` and therefore renders the unresolved
placeholder with a warning naming `L ++ " "`, not a link to `L`. -/
theorem c10_trailing_space_in_label
    (chap : List String) (refs : List (String × LabelInfo)) (c : Char) (cs : List Char)
    (hws : rsWhitespace c = false)
    (hchars : ∀ x ∈ c :: cs, x ≠ '\x7d' ∧ x ≠ '\n')
    (hreg : (refs.lookup (String.mk (c :: cs))).isSome = true)
    (habs : refs.lookup (String.mk (c :: cs) ++ " ") = none) :
    find_and_replace_refs ("\x7b\x7bref: " ++ String.mk (c :: cs) ++ " \x7d\x7d") chap refs =
      some ("**[??]**", [Warning.unknownRef (String.mk (c :: cs) ++ " ")]) := by
  have hdata : ("\x7b\x7bref: " ++ String.mk (c :: cs) ++ " \x7d\x7d").data =
      '\x7b' :: '\x7b' :: 'r' :: 'e' :: 'f' :: ':' :: ' ' ::
        (c :: cs ++ [' ', '\x7d', '\x7d']) := by
    simp [String.data_append]
  have hm : tryMatchRef (("\x7b\x7bref: " ++ String.mk (c :: cs) ++ " \x7d\x7d").data) =
      some (RefType.ref, c :: cs ++ [' '], []) := by
    rw [hdata]; exact tryMatchRef_trailing_space c cs hws hchars
  have hlk : refs.lookup (String.mk (c :: cs ++ [' '])) = none := habs
  have hr : renderRefMatch chap refs RefType.ref (c :: cs ++ [' ']) [] =
      some ("**[??]**", [Warning.unknownRef (String.mk (c :: cs) ++ " ")]) := by
    simp only [renderRefMatch, hlk, List.nil_append]
    rfl
  have hloop := replaceRefsLoop_single_match chap refs
    ((("\x7b\x7bref: " ++ String.mk (c :: cs) ++ " \x7d\x7d").data).length + 1)
    (("\x7b\x7bref: " ++ String.mk (c :: cs) ++ " \x7d\x7d").data) [] RefType.ref
    (c :: cs ++ [' ']) "**[??]**" [Warning.unknownRef (String.mk (c :: cs) ++ " ")]
    (Nat.succ_ne_zero _) hm hr
  unfold find_and_replace_refs
  rw [hloop]
  rfl

-- Witness for C10 at the concrete registered label `prop:lagrange`.
theorem c10_trailing_space_in_label_witness :
    (rsWhitespace 'p' = false ∧
      (∀ x ∈ 'p' :: "rop:lagrange".data, x ≠ '\x7d' ∧ x ≠ '\n') ∧
      (([("prop:lagrange", (⟨"Proposition 1", ["a.md"], none⟩ : LabelInfo))].lookup
          (String.mk ('p' :: "rop:lagrange".data))).isSome = true) ∧
      [("prop:lagrange", (⟨"Proposition 1", ["a.md"], none⟩ : LabelInfo))].lookup
        (String.mk ('p' :: "rop:lagrange".data) ++ " ") = none) ∧
    find_and_replace_refs
        ("\x7b\x7bref: " ++ String.mk ('p' :: "rop:lagrange".data) ++ " \x7d\x7d") ["b.md"]
        [("prop:lagrange", ⟨"Proposition 1", ["a.md"], none⟩)] =
      some ("**[??]**",
        [Warning.unknownRef (String.mk ('p' :: "rop:lagrange".data) ++ " ")]) :=
  ⟨⟨by decide, by decide, by decide, by decide⟩,
    c10_trailing_space_in_label ["b.md"]
      [("prop:lagrange", ⟨"Proposition 1", ["a.md"], none⟩)] 'p' "rop:lagrange".data
      (by decide) (by decide) (by decide) (by decide)⟩
